import Mathlib

/-!
Shallow embedding of the Rainbond `backup_apps_new` task worker
(`builder/exector` package): the metadata version resolver
(`judgeMetadataVersion`), the service backup orchestrator
(`backupServiceInfo` with its per-version loop), the artifact transfer
strategy (`uploadSlug` / `uploadImage`), the existence check
(`checkVersionExist`), the plugin image backup (`backupPluginInfo`) and
the finalization part of `Run`.

External collaborators (filesystem, sftp, docker/registry clients, the
zip utility, the status store) are modelled as a `World` of pure oracles:
each Go call that can fail or return data is one field.  Machine int64
sizes are modelled as `Int` (no overflow is relevant to the claims).
Go string operations act on bytes; all paths involved are ASCII, so
`List Char` operations coincide.
-/

set_option autoImplicit false

namespace RainbondBackup

/-- OldMetadata identifies older versions of metadata (Go constant). -/
def OldMetadata : String := "OldMetadata"

/-- NewMetadata identifies the new version of metadata (Go constant). -/
def NewMetadata : String := "NewMetadata"

/-- maxBackupVersionSize is the maximum number of backup versions per
service (Go global `var maxBackupVersionSize = 3`). -/
def maxBackupVersionSize : Nat := 3

/-- The fields of `dbmodel.VersionInfo` read or written by the worker. -/
structure VersionInfo where
  buildVersion : String
  deliveredType : String
  deliveredPath : String
  finalStatus : String
deriving DecidableEq, Repr

/-- The fields of `dbmodel.TenantServices` read by the worker. -/
structure TenantServices where
  serviceID : String
  tenantID : String
  serviceAlias : String
  serviceName : String
deriving DecidableEq, Repr

/-- The fields of `dbmodel.TenantServiceVolume` read by the worker. -/
structure TenantServiceVolume where
  volumeName : String
  hostPath : String
deriving DecidableEq, Repr

/-- The fields of `RegionServiceSnapshot` read by the worker. -/
structure RegionServiceSnapshot where
  serviceID : String
  service : TenantServices
  serviceVolume : List TenantServiceVolume
  versions : List VersionInfo
deriving DecidableEq, Repr

/-- The fields of `dbmodel.TenantPluginBuildVersion` read by the worker. -/
structure TenantPluginBuildVersion where
  pluginID : String
  deployVersion : String
  buildLocalImage : String
deriving DecidableEq, Repr

/-- The fields of `AppSnapshot` (structured, new-format metadata). -/
structure AppSnapshot where
  services : List RegionServiceSnapshot
  pluginBuildVersions : List TenantPluginBuildVersion
deriving DecidableEq, Repr

/-- SlugInfo block of the task descriptor. -/
structure SlugInfo where
  nameSpace : String
  ftpHost : String
  ftpPort : String
  ftpUser : String
  ftpPassword : String
deriving DecidableEq, Repr

/-- ImageInfo block of the task descriptor. -/
structure ImageInfo where
  hubURL : String
  hubUser : String
  hubPassword : String
  nameSpace : String
  isTrust : Bool
deriving DecidableEq, Repr

/-- The fields of the `BackupAPPNew` task worker used by `Run` and its
callees. -/
structure BackupAPPNew where
  groupID : String
  mode : String
  version : String
  slugInfo : SlugInfo
  imageInfo : ImageInfo
  sourceDir : String
  sourceType : String
  backupSize : Int
deriving DecidableEq, Repr

/-- Result of `os.Stat` on a slug path, at the granularity
`checkVersionExist` distinguishes: not-exist, some other stat error,
a directory, or a regular file. -/
inductive StatResult where
  | notExist
  | statFailed
  | isDir
  | isFile
deriving DecidableEq, Repr

/-- Errors returned by the worker and its collaborators. -/
inductive GoErr where
  | readFileError
  | unmarshalError
  | backupBuildVersionFailure (svcAlias : String)
  | volumeZipAllError (serviceID : String)
  | volumeZipError (serviceID volumeName : String)
  | sftpClientError
  | pushFileError (src dst : String)
  | copyFileError (src dst : String)
  | createShareImageError
  | imagePullError (image : String)
  | imageTagError (image : String)
  | imagePushError (image : String)
  | imageSaveError (image : String)
  | registryClientError (path : String)
  | manifestError (path : String)
  | statError (path : String)
  | invalidDeliveredType
  | pluginPullError (image : String)
  | pluginSaveError (image : String)
  | zipError (dir : String)
  | dbGetError
  | dbUpdateError
deriving DecidableEq, Repr

/-- Rendering of the error messages built with `fmt.Errorf` in the Go
source, for the errors whose text the claims mention. -/
def GoErr.message : GoErr → String
  | .backupBuildVersionFailure svcAlias =>
      "Application(" ++ svcAlias ++ ") Backup build version failure"
  | .invalidDeliveredType => "delivered type is invalid"
  | _ => ""

/-- A metadata blob at the granularity JSON decoding distinguishes here:
a top-level JSON object (which decodes into the `AppSnapshot` struct and
not into a slice), a top-level JSON array (which decodes into
`[]*RegionServiceSnapshot` and not into a struct), or bytes that decode
as neither. -/
inductive MetadataBlob where
  | jsonObject (snap : AppSnapshot)
  | jsonArray (svcs : List RegionServiceSnapshot)
  | invalid
deriving DecidableEq, Repr

/-- Result of `ffjson.Unmarshal(metadata, &appSnapshot)`:
a top-level JSON object decodes, anything else fails. -/
def unmarshalAppSnapshot : MetadataBlob → Option AppSnapshot
  | .jsonObject snap => some snap
  | _ => none

/-- Result of `ffjson.Unmarshal(metadata, &svcSnapshot)` for
`[]*RegionServiceSnapshot`: a top-level JSON array decodes, anything
else fails. -/
def unmarshalSvcSnapshot : MetadataBlob → Option (List RegionServiceSnapshot)
  | .jsonArray svcs => some svcs
  | _ => none

/-- The world of external collaborators: one pure oracle per Go call
that can fail or return data.  `Bool`-valued fields mean the call
succeeds when `true`. -/
structure World where
  readMetadataFile : String → Option MetadataBlob
  getFileSize : String → Int
  newSFTPClientOk : Bool
  pushFileOk : String → String → Bool
  copyFileOk : String → String → Bool
  createShareImage : VersionInfo → String → String → String → Option String
  imagePull : String → Option Int
  imageTagOk : String → String → Bool
  trustedImagePushOk : String → Bool
  imagePushOk : String → Bool
  imageSaveOk : String → String → Bool
  newRegistryOk : String → Bool
  manifestOk : String → Bool
  statSlug : String → StatResult
  dirIsEmpty : String → Bool
  zipOk : String → String → Bool
  envLocalDataPath : String
  envShareDataPath : String
  getAppBackupOk : Bool
  updateModelOk : Bool

/-- Go `judgeMetadataVersion`: try the structured schema, then the
legacy flat-list schema.  Faithful to the source, including the second
branch, which tests `err == nil` after the legacy decode and there
returns the empty version string together with the `nil` error, and the
final `return OldMetadata, nil`, reached when the legacy decode fails. -/
def judgeMetadataVersion (metadata : MetadataBlob) : String × Option GoErr :=
  match unmarshalAppSnapshot metadata with
  | some _ => (NewMetadata, none)
  | none =>
    match unmarshalSvcSnapshot metadata with
    | some _ => ("", none)
    | none => (OldMetadata, none)

/-- Go `checkVersionExist`: registry manifest fetch for image kind,
filesystem stat for slug kind; every error path returns `false`
together with the error. -/
def checkVersionExist (w : World) (version : VersionInfo) :
    Bool × Option GoErr :=
  if version.deliveredType == "image" then
    if !(w.newRegistryOk version.deliveredPath) then
      (false, some (.registryClientError version.deliveredPath))
    else if !(w.manifestOk version.deliveredPath) then
      (false, some (.manifestError version.deliveredPath))
    else (true, none)
  else if version.deliveredType == "slug" then
    match w.statSlug version.deliveredPath with
    | .notExist => (false, none)
    | .statFailed => (false, some (.statError version.deliveredPath))
    | .isDir => (false, none)
    | .isFile => (true, none)
  else (false, some .invalidDeliveredType)

/-- Go `uploadSlug`: remote (sftp) push when mode is full-online and
ftp host and port are configured, local copy otherwise.  Returns the
amount added to `b.BackupSize` on success (the slug file's size in the
remote branch, nothing in the local branch). -/
def uploadSlug (w : World) (b : BackupAPPNew) (app : RegionServiceSnapshot)
    (version : VersionInfo) : Except GoErr Int :=
  if b.mode == "full-online" && b.slugInfo.ftpHost != "" && b.slugInfo.ftpPort != "" then
    if !w.newSFTPClientOk then .error .sftpClientError
    else
      if !(w.pushFileOk version.deliveredPath
          (b.slugInfo.nameSpace ++ "/backup/" ++ b.groupID ++ "_" ++ b.version ++
            "/app_" ++ app.serviceID ++ "/" ++ version.buildVersion ++ ".tgz")) then
        .error (.pushFileError version.deliveredPath
          (b.slugInfo.nameSpace ++ "/backup/" ++ b.groupID ++ "_" ++ b.version ++
            "/app_" ++ app.serviceID ++ "/" ++ version.buildVersion ++ ".tgz"))
      else .ok (w.getFileSize version.deliveredPath)
  else
    if !(w.copyFileOk version.deliveredPath
        (b.sourceDir ++ "/app_" ++ app.serviceID ++ "/slug_" ++
          version.buildVersion ++ ".tgz")) then
      .error (.copyFileError version.deliveredPath
        (b.sourceDir ++ "/app_" ++ app.serviceID ++ "/slug_" ++
          version.buildVersion ++ ".tgz"))
    else .ok 0

/-- Go `uploadImage`: remote (hub push) when mode is full-online and a
hub URL is configured, local `ImageSave` otherwise.  Returns the amount
added to `b.BackupSize` on success (the pulled image's reported size in
the remote branch, nothing in the local branch). -/
def uploadImage (w : World) (b : BackupAPPNew) (app : RegionServiceSnapshot)
    (version : VersionInfo) : Except GoErr Int :=
  if b.mode == "full-online" && b.imageInfo.hubURL != "" then
    match w.createShareImage version b.imageInfo.hubURL b.imageInfo.nameSpace
        (b.version ++ "_backup") with
    | none => .error .createShareImageError
    | some backupImage =>
      match w.imagePull version.deliveredPath with
      | none => .error (.imagePullError version.deliveredPath)
      | some size =>
        if !(w.imageTagOk version.deliveredPath backupImage) then
          .error (.imageTagError version.deliveredPath)
        else if b.imageInfo.isTrust then
          if !(w.trustedImagePushOk backupImage) then
            .error (.imagePushError backupImage)
          else .ok size
        else
          if !(w.imagePushOk backupImage) then
            .error (.imagePushError backupImage)
          else .ok size
  else
    if !(w.imageSaveOk version.deliveredPath
        (b.sourceDir ++ "/app_" ++ app.serviceID ++ "/image_" ++
          version.buildVersion ++ ".tar")) then
      .error (.imageSaveError version.deliveredPath)
    else .ok 0

/-- Log entries emitted with `logrus.Errorf` inside the per-version
loop of `backupServiceInfo`. -/
inductive LogEntry where
  | uploadSlugError (serviceName buildVersion : String)
  | uploadImageError (serviceName buildVersion : String)
deriving DecidableEq, Repr

/-- State carried by the per-version loop of `backupServiceInfo`:
the (possibly mutated) version records, the per-service success counter
`backupVersionSize`, the accumulated `BackupSize` delta, and the error
log. -/
structure LoopResult where
  versions : List VersionInfo
  cnt : Nat
  size : Int
  log : List LogEntry
deriving DecidableEq, Repr

/-- The image half of one iteration of the per-version loop: the Go
block guarded by `version.DeliveredType == "image" &&
version.FinalStatus == "success"`. -/
def backupVersionIterImage (w : World) (b : BackupAPPNew)
    (app : RegionServiceSnapshot) (v : VersionInfo) (cnt : Nat) (size : Int)
    (log : List LogEntry) : VersionInfo × Nat × Int × List LogEntry :=
  if v.deliveredType == "image" && v.finalStatus == "success" then
    if !(checkVersionExist w v).1 then
      ({ v with finalStatus := "lost" }, cnt, size, log)
    else
      match uploadImage w b app v with
      | .error _ =>
          (v, cnt, size,
            log ++ [.uploadImageError app.service.serviceName v.buildVersion])
      | .ok d => (v, cnt + 1, size + d, log)
  else (v, cnt, size, log)

/-- One iteration of the per-version loop body of `backupServiceInfo`
(after the cap test): the slug block, falling through to the image
block exactly as the two sequential `if` statements in the source do
(the slug block's lost-path executes `continue` and skips the image
block; its upload path falls through). -/
def backupVersionIter (w : World) (b : BackupAPPNew)
    (app : RegionServiceSnapshot) (v : VersionInfo) (cnt : Nat) (size : Int)
    (log : List LogEntry) : VersionInfo × Nat × Int × List LogEntry :=
  if v.deliveredType == "slug" && v.finalStatus == "success" then
    if !(checkVersionExist w v).1 then
      ({ v with finalStatus := "lost" }, cnt, size, log)
    else
      match uploadSlug w b app v with
      | .error _ =>
          backupVersionIterImage w b app v cnt size
            (log ++ [.uploadSlugError app.service.serviceName v.buildVersion])
      | .ok d => backupVersionIterImage w b app v (cnt + 1) (size + d) log
  else backupVersionIterImage w b app v cnt size log

/-- The per-version loop of `backupServiceInfo`: `break` once
`backupVersionSize >= maxBackupVersionSize` (leaving the remaining
version records untouched), otherwise run one iteration and continue. -/
def backupVersionsLoop (w : World) (b : BackupAPPNew)
    (app : RegionServiceSnapshot) :
    List VersionInfo → Nat → Int → List LogEntry → LoopResult
  | [], cnt, size, log => ⟨[], cnt, size, log⟩
  | v :: rest, cnt, size, log =>
    if cnt ≥ maxBackupVersionSize then ⟨v :: rest, cnt, size, log⟩
    else
      match backupVersionIter w b app v cnt size log with
      | (v', cnt', size', log') =>
        match backupVersionsLoop w b app rest cnt' size' log' with
        | r => ⟨v' :: r.versions, r.cnt, r.size, r.log⟩

/-- Go `GetVolumeDir`: the local and shared data path prefixes from the
environment, with defaults. -/
def GetVolumeDir (w : World) : String × String :=
  let localPath := if w.envLocalDataPath == "" then "/grlocaldata" else w.envLocalDataPath
  let sharePath := if w.envShareDataPath == "" then "/grdata" else w.envShareDataPath
  (localPath, sharePath)

/-- The tenant/service-scoped shared data directory of a service, Go
`path.Join(sharepath, "tenant", app.Service.TenantID, "service",
app.Service.ServiceID)`. -/
def serviceVolumeDataDir (w : World) (app : RegionServiceSnapshot) : String :=
  (GetVolumeDir w).2 ++ "/tenant/" ++ app.service.tenantID ++ "/service/" ++
    app.service.serviceID

/-- Destination of the one "all data" bundle of a service, Go
`fmt.Sprintf` of SourceDir, literal "all" and literal "data". -/
def allDataDstDir (b : BackupAPPNew) : String :=
  b.sourceDir ++ "/data_all/data.zip"

/-- Destination of the per-volume bundle, Go `fmt.Sprintf` with the
volume name stripped of path separators via `strings.Replace`. -/
def volumeDstDir (b : BackupAPPNew) (app : RegionServiceSnapshot)
    (volume : TenantServiceVolume) : String :=
  b.sourceDir ++ "/data_" ++ app.serviceID ++ "/" ++
    (volume.volumeName.replace "/" "") ++ ".zip"

/-- The per-volume loop of `backupServiceInfo`: each declared volume
with a non-empty host path that is not an empty directory is zipped to
its own bundle; a zip failure aborts.  Returns the bundle destinations
produced. -/
def backupVolumesLoop (w : World) (b : BackupAPPNew)
    (app : RegionServiceSnapshot) :
    List TenantServiceVolume → Except GoErr (List String)
  | [] => .ok []
  | volume :: rest =>
    if volume.hostPath != "" && !(w.dirIsEmpty volume.hostPath) then
      if w.zipOk volume.hostPath (volumeDstDir b app volume) then
        match backupVolumesLoop w b app rest with
        | .error e => .error e
        | .ok l => .ok (volumeDstDir b app volume :: l)
      else .error (.volumeZipError app.serviceID volume.volumeName)
    else backupVolumesLoop w b app rest

/-- The persistent-data part of `backupServiceInfo` for one service:
the guard `if len(app.ServiceVolume) > 0` around the "all data" bundle
of the shared per-service directory (skipped when that directory is
empty), followed by the per-volume loop.  Returns the bundle
destinations produced. -/
def backupServiceVolumes (w : World) (b : BackupAPPNew)
    (app : RegionServiceSnapshot) : Except GoErr (List String) :=
  match
    (if app.serviceVolume.length > 0 then
      if !(w.dirIsEmpty (serviceVolumeDataDir w app)) then
        if w.zipOk (serviceVolumeDataDir w app) (allDataDstDir b) then
          Except.ok [allDataDstDir b]
        else Except.error (GoErr.volumeZipAllError app.serviceID)
      else Except.ok []
    else Except.ok []) with
  | .error e => .error e
  | .ok l =>
    match backupVolumesLoop w b app app.serviceVolume with
    | .error e => .error e
    | .ok l2 => .ok (l ++ l2)

/-- The body of `backupServiceInfo` for one service: the per-version
loop starting from `backupVersionSize = 0`, the hard failure when zero
versions were transferred, then the persistent-data backup.  Returns the
updated service record, the `BackupSize` delta, the error log and the
volume bundles. -/
def backupOneService (w : World) (b : BackupAPPNew)
    (app : RegionServiceSnapshot) :
    Except GoErr (RegionServiceSnapshot × Int × List LogEntry × List String) :=
  if (backupVersionsLoop w b app app.versions 0 0 []).cnt == 0 then
    .error (.backupBuildVersionFailure app.service.serviceAlias)
  else
    match backupServiceVolumes w b app with
    | .error e => .error e
    | .ok bundles =>
      .ok ({ app with versions := (backupVersionsLoop w b app app.versions 0 0 []).versions },
        (backupVersionsLoop w b app app.versions 0 0 []).size,
        (backupVersionsLoop w b app app.versions 0 0 []).log, bundles)

/-- Go `backupServiceInfo`: services processed strictly in declared
order; the first error aborts, leaving every later service unprocessed.
Returns the updated service records, the total `BackupSize` delta and
the concatenated error log. -/
def backupServiceInfo (w : World) (b : BackupAPPNew) :
    List RegionServiceSnapshot →
    Except GoErr (List RegionServiceSnapshot × Int × List LogEntry)
  | [] => .ok ([], 0, [])
  | app :: rest =>
    match backupOneService w b app with
    | .error e => .error e
    | .ok (app', d, log, _) =>
      match backupServiceInfo w b rest with
      | .error e => .error e
      | .ok (rest', d2, log2) => .ok (app' :: rest', d + d2, log ++ log2)

/-- Destination of one plugin image export, Go `fmt.Sprintf` of
SourceDir, the plugin id and the deploy version. -/
def pluginDstDir (b : BackupAPPNew) (pv : TenantPluginBuildVersion) : String :=
  b.sourceDir ++ "/plugin_" ++ pv.pluginID ++ "/image_" ++ pv.deployVersion ++ ".tar"

/-- Go `backupPluginInfo`: for each plugin build version, pull the
build image then export it; any pull or export failure returns that
error immediately.  Returns the exported tar destinations. -/
def backupPluginInfo (w : World) (b : BackupAPPNew) :
    List TenantPluginBuildVersion → Except GoErr (List String)
  | [] => .ok []
  | pv :: rest =>
    match w.imagePull pv.buildLocalImage with
    | none => .error (.pluginPullError pv.buildLocalImage)
    | some _ =>
      if !(w.imageSaveOk pv.buildLocalImage (pluginDstDir b pv)) then
        .error (.pluginSaveError pv.buildLocalImage)
      else
        match backupPluginInfo w b rest with
        | .error e => .error e
        | .ok l => .ok (pluginDstDir b pv :: l)

/-- The outcome of a successful `Run`: the task's final accumulated
size, source directory and source type (persisted by
`updateBackupStatu`). -/
structure RunResult where
  backupSize : Int
  sourceDir : String
  sourceType : String
deriving DecidableEq, Repr

/-- The source-directory normalization performed by `Run` before
zipping: Go `if strings.HasSuffix(b.SourceDir, "/")` (here: the last
character is a separator) followed by
`b.SourceDir = b.SourceDir[:len(b.SourceDir)-2]`, a byte-level slice
that removes the last two characters. -/
def normalizeSourceDir (s : String) : String :=
  if s.data.getLast? == some '/' then ⟨s.data.take (s.data.length - 2)⟩ else s

/-- Go `updateBackupStatu`: fetch the persisted backup record by id and
update it; either database call can fail. -/
def updateBackupStatu (w : World) (r : RunResult) : Except GoErr RunResult :=
  if !w.getAppBackupOk then .error .dbGetError
  else if !w.updateModelOk then .error .dbUpdateError
  else .ok r

/-- The tail of `Run` after the service and plugin backups: normalize
the source directory, zip it, add the zip's size to `BackupSize`,
repoint the source directory at the zip, optionally push the zip over
sftp when mode is full-online with ftp credentials, then persist the
status.  `serviceDelta` is the `BackupSize` accumulated during
`backupServiceInfo`. -/
def runFinalize (w : World) (b : BackupAPPNew) (serviceDelta : Int) :
    Except GoErr RunResult :=
  let sourceDir := normalizeSourceDir b.sourceDir
  if !(w.zipOk sourceDir (sourceDir ++ ".zip")) then .error (.zipError sourceDir)
  else
    let backupSize := b.backupSize + serviceDelta + w.getFileSize (sourceDir ++ ".zip")
    if b.mode == "full-online" && b.slugInfo.ftpHost != "" && b.slugInfo.ftpPort != "" then
      if !w.newSFTPClientOk then .error .sftpClientError
      else
        if !(w.pushFileOk (sourceDir ++ ".zip")
            (b.slugInfo.nameSpace ++ "/backup/" ++ b.groupID ++ "_" ++ b.version ++
              "/metadata_data.zip")) then
          .error (.pushFileError (sourceDir ++ ".zip")
            (b.slugInfo.nameSpace ++ "/backup/" ++ b.groupID ++ "_" ++ b.version ++
              "/metadata_data.zip"))
        else
          updateBackupStatu w
            ⟨backupSize,
              b.slugInfo.nameSpace ++ "/backup/" ++ b.groupID ++ "_" ++ b.version ++
                "/metadata_data.zip",
              "sftp"⟩
    else updateBackupStatu w ⟨backupSize, sourceDir ++ ".zip", b.sourceType⟩

/-- Go `Run`: read the metadata file, classify it with
`judgeMetadataVersion`, dispatch to the legacy branch (unmarshal as a
service list, back up services) or the structured branch (unmarshal as
an `AppSnapshot`, back up services then plugins), then finalize. -/
def run (w : World) (b : BackupAPPNew) : Except GoErr RunResult :=
  match w.readMetadataFile (b.sourceDir ++ "/region_apps_metadata.json") with
  | none => .error .readFileError
  | some metadata =>
    match judgeMetadataVersion metadata with
    | (_, some e) => .error e
    | (metaVersion, none) =>
      if metaVersion == OldMetadata then
        match unmarshalSvcSnapshot metadata with
        | none => .error .unmarshalError
        | some svcSnapshot =>
          match backupServiceInfo w b svcSnapshot with
          | .error e => .error e
          | .ok (_, d, _) => runFinalize w b d
      else
        match unmarshalAppSnapshot metadata with
        | none => .error .unmarshalError
        | some appSnapshot =>
          match backupServiceInfo w b appSnapshot.services with
          | .error e => .error e
          | .ok (_, d, _) =>
            match backupPluginInfo w b appSnapshot.pluginBuildVersions with
            | .error e => .error e
            | .ok _ => runFinalize w b d

/-- A transfer error, as opposed to the hard per-service and volume
errors: the errors `uploadSlug` and `uploadImage` can return. -/
def GoErr.isUploadErr : GoErr → Bool
  | .sftpClientError => true
  | .pushFileError _ _ => true
  | .copyFileError _ _ => true
  | .createShareImageError => true
  | .imagePullError _ => true
  | .imageTagError _ => true
  | .imagePushError _ => true
  | .imageSaveError _ => true
  | _ => false

/-- Size contributed to `BackupSize` by one version when its upload
succeeds (zero when the upload fails or in the local branches). -/
def transferDelta (w : World) (b : BackupAPPNew) (app : RegionServiceSnapshot)
    (v : VersionInfo) : Int :=
  if v.deliveredType == "slug" then
    match uploadSlug w b app v with
    | .ok d => d
    | .error _ => 0
  else
    match uploadImage w b app v with
    | .ok d => d
    | .error _ => 0

/-- Whether an `Except` result is a success. -/
def exceptIsOk {α β : Type} : Except α β → Bool
  | .ok _ => true
  | .error _ => false

/-- A successful `Except` result carries a success value. -/
theorem exceptIsOk_exists {α β : Type} (x : Except α β)
    (h : exceptIsOk x = true) : ∃ d, x = .ok d := by
  cases x with
  | ok d => exact ⟨d, rfl⟩
  | error e => simp [exceptIsOk] at h

/-- A version that the per-version loop counts as a success: delivered
kind slug or image, status success, artifact present, upload succeeding. -/
def goodVersion (w : World) (b : BackupAPPNew) (app : RegionServiceSnapshot)
    (v : VersionInfo) : Bool :=
  v.finalStatus == "success" && (checkVersionExist w v).1 &&
    (if v.deliveredType == "slug" then exceptIsOk (uploadSlug w b app v)
    else if v.deliveredType == "image" then exceptIsOk (uploadImage w b app v)
    else false)

/-- Once the per-service counter has reached the cap, the loop breaks
at once and leaves state and remaining versions untouched. -/
theorem backupVersionsLoop_break (w : World) (b : BackupAPPNew)
    (app : RegionServiceSnapshot) (vs : List VersionInfo) (cnt : Nat)
    (size : Int) (log : List LogEntry) (h : cnt ≥ maxBackupVersionSize) :
    backupVersionsLoop w b app vs cnt size log = ⟨vs, cnt, size, log⟩ := by
  cases vs with
  | nil => rfl
  | cons v rest => simp [backupVersionsLoop, h]

/-- A slug or success-status version whose existence check reports
false is marked lost and skipped: the loop continues on the remaining
versions with counter, size and log unchanged. -/
theorem backupVersionsLoop_lost_step (w : World) (b : BackupAPPNew)
    (app : RegionServiceSnapshot) (v : VersionInfo) (rest : List VersionInfo)
    (cnt : Nat) (size : Int) (log : List LogEntry)
    (hcnt : cnt < maxBackupVersionSize)
    (hkind : v.deliveredType = "slug" ∨ v.deliveredType = "image")
    (hstatus : v.finalStatus = "success")
    (hmiss : (checkVersionExist w v).1 = false) :
    backupVersionsLoop w b app (v :: rest) cnt size log =
      ⟨{ v with finalStatus := "lost" } ::
          (backupVersionsLoop w b app rest cnt size log).versions,
        (backupVersionsLoop w b app rest cnt size log).cnt,
        (backupVersionsLoop w b app rest cnt size log).size,
        (backupVersionsLoop w b app rest cnt size log).log⟩ := by
  have hiter : backupVersionIter w b app v cnt size log =
      ({ v with finalStatus := "lost" }, cnt, size, log) := by
    rcases hkind with h | h
    · simp [backupVersionIter, h, hstatus, hmiss]
    · simp [backupVersionIter, backupVersionIterImage, h, hstatus, hmiss,
        show (("image" : String) == "slug") = false from rfl]
  simp [backupVersionsLoop, Nat.not_le.mpr hcnt, hiter]

/-- Every error path of the existence check reports the artifact as
absent: whenever the check returns an error its boolean is false. -/
theorem checkVersionExist_err_false (w : World) (v : VersionInfo)
    (h : (checkVersionExist w v).2.isSome = true) :
    (checkVersionExist w v).1 = false := by
  unfold checkVersionExist at h ⊢
  split at h
  · split at h
    · simp_all
    · split at h <;> simp_all
  · split at h
    · cases hs : w.statSlug v.deliveredPath <;> simp_all
    · simp_all

/-- A failing slug upload is logged and skipped: the loop continues on
the remaining versions with the version record, counter and size
unchanged and one error log entry appended. -/
theorem backupVersionsLoop_slug_err_step (w : World) (b : BackupAPPNew)
    (app : RegionServiceSnapshot) (v : VersionInfo) (rest : List VersionInfo)
    (cnt : Nat) (size : Int) (log : List LogEntry) (e : GoErr)
    (hcnt : cnt < maxBackupVersionSize)
    (hkind : v.deliveredType = "slug") (hstatus : v.finalStatus = "success")
    (hexist : (checkVersionExist w v).1 = true)
    (herr : uploadSlug w b app v = .error e) :
    backupVersionsLoop w b app (v :: rest) cnt size log =
      ⟨v :: (backupVersionsLoop w b app rest cnt size
              (log ++ [.uploadSlugError app.service.serviceName v.buildVersion])).versions,
        (backupVersionsLoop w b app rest cnt size
          (log ++ [.uploadSlugError app.service.serviceName v.buildVersion])).cnt,
        (backupVersionsLoop w b app rest cnt size
          (log ++ [.uploadSlugError app.service.serviceName v.buildVersion])).size,
        (backupVersionsLoop w b app rest cnt size
          (log ++ [.uploadSlugError app.service.serviceName v.buildVersion])).log⟩ := by
  have hiter : backupVersionIter w b app v cnt size log =
      (v, cnt, size,
        log ++ [.uploadSlugError app.service.serviceName v.buildVersion]) := by
    simp [backupVersionIter, backupVersionIterImage, hkind, hstatus, hexist, herr,
      show (("slug" : String) == "image") = false from rfl]
  simp [backupVersionsLoop, Nat.not_le.mpr hcnt, hiter]

/-- A failing image upload is logged and skipped: the loop continues on
the remaining versions with the version record, counter and size
unchanged and one error log entry appended. -/
theorem backupVersionsLoop_image_err_step (w : World) (b : BackupAPPNew)
    (app : RegionServiceSnapshot) (v : VersionInfo) (rest : List VersionInfo)
    (cnt : Nat) (size : Int) (log : List LogEntry) (e : GoErr)
    (hcnt : cnt < maxBackupVersionSize)
    (hkind : v.deliveredType = "image") (hstatus : v.finalStatus = "success")
    (hexist : (checkVersionExist w v).1 = true)
    (herr : uploadImage w b app v = .error e) :
    backupVersionsLoop w b app (v :: rest) cnt size log =
      ⟨v :: (backupVersionsLoop w b app rest cnt size
              (log ++ [.uploadImageError app.service.serviceName v.buildVersion])).versions,
        (backupVersionsLoop w b app rest cnt size
          (log ++ [.uploadImageError app.service.serviceName v.buildVersion])).cnt,
        (backupVersionsLoop w b app rest cnt size
          (log ++ [.uploadImageError app.service.serviceName v.buildVersion])).size,
        (backupVersionsLoop w b app rest cnt size
          (log ++ [.uploadImageError app.service.serviceName v.buildVersion])).log⟩ := by
  have hiter : backupVersionIter w b app v cnt size log =
      (v, cnt, size,
        log ++ [.uploadImageError app.service.serviceName v.buildVersion]) := by
    simp [backupVersionIter, backupVersionIterImage, hkind, hstatus, hexist, herr,
      show (("image" : String) == "slug") = false from rfl]
  simp [backupVersionsLoop, Nat.not_le.mpr hcnt, hiter]

/-- A good version is counted: the loop continues on the remaining
versions with the version record unchanged, the counter incremented and
the size increased by the version's transfer delta. -/
theorem backupVersionsLoop_good_step (w : World) (b : BackupAPPNew)
    (app : RegionServiceSnapshot) (v : VersionInfo) (rest : List VersionInfo)
    (cnt : Nat) (size : Int) (log : List LogEntry)
    (hcnt : cnt < maxBackupVersionSize)
    (hv : goodVersion w b app v = true) :
    backupVersionsLoop w b app (v :: rest) cnt size log =
      ⟨v :: (backupVersionsLoop w b app rest (cnt + 1)
              (size + transferDelta w b app v) log).versions,
        (backupVersionsLoop w b app rest (cnt + 1)
          (size + transferDelta w b app v) log).cnt,
        (backupVersionsLoop w b app rest (cnt + 1)
          (size + transferDelta w b app v) log).size,
        (backupVersionsLoop w b app rest (cnt + 1)
          (size + transferDelta w b app v) log).log⟩ := by
  have hiter : backupVersionIter w b app v cnt size log =
      (v, cnt + 1, size + transferDelta w b app v, log) := by
    unfold goodVersion at hv
    by_cases hslug : v.deliveredType = "slug"
    · obtain ⟨⟨hstatus, hexist⟩, hup⟩ := by simpa [hslug] using hv
      obtain ⟨d, hd⟩ := exceptIsOk_exists (uploadSlug w b app v) hup
      simp [backupVersionIter, backupVersionIterImage, transferDelta,
        hslug, hstatus, hexist, hd,
        show (("slug" : String) == "image") = false from rfl]
    · by_cases himg : v.deliveredType = "image"
      · obtain ⟨⟨hstatus, hexist⟩, hup⟩ := by simpa [himg] using hv
        obtain ⟨d, hd⟩ := exceptIsOk_exists (uploadImage w b app v) hup
        simp [backupVersionIter, backupVersionIterImage, transferDelta,
          himg, hstatus, hexist, hd,
          show (("image" : String) == "slug") = false from rfl]
      · exfalso
        simp [hslug, himg] at hv
  simp [backupVersionsLoop, Nat.not_le.mpr hcnt, hiter]

/-- Running the loop over a prefix of good versions while under the cap
processes each of them: the prefix is emitted unchanged and the loop
continues on the suffix with the counter grown by the prefix length and
the size grown by the sum of the prefix's transfer deltas. -/
theorem backupVersionsLoop_good_prefix (w : World) (b : BackupAPPNew)
    (app : RegionServiceSnapshot) (pre : List VersionInfo) :
    ∀ (suffix : List VersionInfo) (cnt : Nat) (size : Int) (log : List LogEntry),
      (∀ v ∈ pre, goodVersion w b app v = true) →
      cnt + pre.length ≤ maxBackupVersionSize →
      backupVersionsLoop w b app (pre ++ suffix) cnt size log =
        ⟨pre ++ (backupVersionsLoop w b app suffix (cnt + pre.length)
            (size + (pre.map (transferDelta w b app)).sum) log).versions,
          (backupVersionsLoop w b app suffix (cnt + pre.length)
            (size + (pre.map (transferDelta w b app)).sum) log).cnt,
          (backupVersionsLoop w b app suffix (cnt + pre.length)
            (size + (pre.map (transferDelta w b app)).sum) log).size,
          (backupVersionsLoop w b app suffix (cnt + pre.length)
            (size + (pre.map (transferDelta w b app)).sum) log).log⟩ := by
  induction pre with
  | nil => intro suffix cnt size log _ _; simp
  | cons v pre ih =>
    intro suffix cnt size log hgood hle
    have hcnt : cnt < maxBackupVersionSize := by
      simp [List.length_cons] at hle; omega
    rw [List.cons_append, backupVersionsLoop_good_step w b app v (pre ++ suffix)
      cnt size log hcnt (hgood v (by simp))]
    rw [ih suffix (cnt + 1) (size + transferDelta w b app v) log
      (fun u hu => hgood u (by simp [hu])) (by simp at hle ⊢; omega)]
    have h1 : cnt + 1 + pre.length = cnt + (pre.length + 1) := by omega
    have h2 : size + transferDelta w b app v + (pre.map (transferDelta w b app)).sum =
        size + (transferDelta w b app v + (pre.map (transferDelta w b app)).sum) := by
      ring
    simp [h1, h2]

/-- The size a successful slug upload reports: the slug file's size in
the remote branch, zero in the local branch. -/
theorem uploadSlug_ok_size (w : World) (b : BackupAPPNew)
    (app : RegionServiceSnapshot) (v : VersionInfo) (d : Int)
    (h : uploadSlug w b app v = .ok d) :
    d = (if b.mode == "full-online" && b.slugInfo.ftpHost != "" &&
          b.slugInfo.ftpPort != "" then w.getFileSize v.deliveredPath else 0) := by
  unfold uploadSlug at h
  split at h
  · rename_i hcond
    split at h
    · cases h
    · split at h
      · cases h
      · cases h
        rw [if_pos hcond]
  · rename_i hcond
    split at h
    · cases h
    · cases h
      rw [if_neg hcond]

/-- The size a successful image upload reports: the pulled image's
reported size in the remote branch, zero in the local branch. -/
theorem uploadImage_ok_size (w : World) (b : BackupAPPNew)
    (app : RegionServiceSnapshot) (v : VersionInfo) (d : Int)
    (h : uploadImage w b app v = .ok d) :
    d = (if b.mode == "full-online" && b.imageInfo.hubURL != "" then
          (w.imagePull v.deliveredPath).getD 0 else 0) := by
  unfold uploadImage at h
  split at h
  · rename_i hcond
    split at h
    · cases h
    · rename_i backupImage hcsi
      split at h
      · cases h
      · rename_i size hpull
        split at h
        · cases h
        · split at h
          · split at h
            · cases h
            · cases h
              rw [if_pos hcond, hpull]
              rfl
          · split at h
            · cases h
            · cases h
              rw [if_pos hcond, hpull]
              rfl
  · rename_i hcond
    split at h
    · cases h
    · cases h
      rw [if_neg hcond]

/-- In local destination mode neither upload contributes to the size
accumulator. -/
theorem transferDelta_local (w : World) (b : BackupAPPNew)
    (app : RegionServiceSnapshot) (v : VersionInfo)
    (h1 : (b.mode == "full-online" && b.slugInfo.ftpHost != "" &&
      b.slugInfo.ftpPort != "") = false)
    (h2 : (b.mode == "full-online" && b.imageInfo.hubURL != "") = false) :
    transferDelta w b app v = 0 := by
  unfold transferDelta
  split
  · cases hu : uploadSlug w b app v with
    | ok d => rw [uploadSlug_ok_size w b app v d hu, h1]; rfl
    | error e => rfl
  · cases hu : uploadImage w b app v with
    | ok d => rw [uploadImage_ok_size w b app v d hu, h2]; rfl
    | error e => rfl

/-- The size component of one loop iteration either stays put or grows
by the value a successful upload returned. -/
theorem backupVersionIter_size_shape (w : World) (b : BackupAPPNew)
    (app : RegionServiceSnapshot) (v : VersionInfo) (cnt : Nat) (size : Int)
    (log : List LogEntry) :
    (backupVersionIter w b app v cnt size log).2.2.1 = size ∨
    ∃ d, (uploadSlug w b app v = .ok d ∨ uploadImage w b app v = .ok d) ∧
      (backupVersionIter w b app v cnt size log).2.2.1 = size + d := by
  unfold backupVersionIter backupVersionIterImage
  repeat' split
  all_goals
    first
    | exact Or.inl rfl
    | (rename_i heq; exact Or.inr ⟨_, Or.inl heq, rfl⟩)
    | (rename_i heq; exact Or.inr ⟨_, Or.inr heq, rfl⟩)
    | simp_all [show (("slug" : String) == "image") = false from rfl]

/-- In local destination mode the loop never changes the size
accumulator, whatever the versions and their outcomes are. -/
theorem backupVersionsLoop_local_size (w : World) (b : BackupAPPNew)
    (app : RegionServiceSnapshot)
    (h1 : (b.mode == "full-online" && b.slugInfo.ftpHost != "" &&
      b.slugInfo.ftpPort != "") = false)
    (h2 : (b.mode == "full-online" && b.imageInfo.hubURL != "") = false) :
    ∀ (vs : List VersionInfo) (cnt : Nat) (size : Int) (log : List LogEntry),
      (backupVersionsLoop w b app vs cnt size log).size = size := by
  intro vs
  induction vs with
  | nil => intro cnt size log; rfl
  | cons v rest ih =>
    intro cnt size log
    by_cases hc : cnt ≥ maxBackupVersionSize
    · rw [backupVersionsLoop_break w b app _ cnt size log hc]
    · have hsize : (backupVersionIter w b app v cnt size log).2.2.1 = size := by
        rcases backupVersionIter_size_shape w b app v cnt size log with h | ⟨d, hd, h⟩
        · exact h
        · have hd0 : d = 0 := by
            rcases hd with hu | hu
            · rw [uploadSlug_ok_size w b app v d hu, h1]; rfl
            · rw [uploadImage_ok_size w b app v d hu, h2]; rfl
          rw [h, hd0, add_zero]
      simp only [backupVersionsLoop]
      rw [if_neg hc]
      rcases hiter : backupVersionIter w b app v cnt size log with ⟨v', cnt', size', log'⟩
      have : size' = size := by
        have := hsize; rw [hiter] at this; exact this
      simp [this, ih]

/-- Errors escaping the per-volume loop are volume-zip errors, never
transfer errors. -/
theorem backupVolumesLoop_error_not_upload (w : World) (b : BackupAPPNew)
    (app : RegionServiceSnapshot) :
    ∀ (vols : List TenantServiceVolume) (e : GoErr),
      backupVolumesLoop w b app vols = .error e → e.isUploadErr = false := by
  intro vols
  induction vols with
  | nil => intro e h; cases h
  | cons vol rest ih =>
    intro e h
    unfold backupVolumesLoop at h
    split at h
    · split at h
      · split at h
        · rename_i e1 heq
          cases h
          exact ih _ heq
        · cases h
      · cases h
        rfl
    · exact ih e h

/-- Errors escaping the persistent-data backup of one service are
volume-zip errors, never transfer errors. -/
theorem backupServiceVolumes_error_not_upload (w : World) (b : BackupAPPNew)
    (app : RegionServiceSnapshot) (e : GoErr)
    (h : backupServiceVolumes w b app = .error e) : e.isUploadErr = false := by
  unfold backupServiceVolumes at h
  split at h
  · rename_i e1 heq
    split at heq
    · split at heq
      · split at heq
        · cases heq
        · cases heq
          cases h
          rfl
      · cases heq
    · cases heq
  · rename_i l heq
    split at h
    · rename_i e1 hloop
      cases h
      exact backupVolumesLoop_error_not_upload w b app app.serviceVolume e hloop
    · cases h

/-- Errors escaping the backup of one service are the zero-success hard
failure or volume-zip errors, never transfer errors. -/
theorem backupOneService_error_not_upload (w : World) (b : BackupAPPNew)
    (app : RegionServiceSnapshot) (e : GoErr)
    (h : backupOneService w b app = .error e) : e.isUploadErr = false := by
  unfold backupOneService at h
  split at h
  · cases h
    rfl
  · split at h
    · rename_i e1 heq
      cases h
      exact backupServiceVolumes_error_not_upload w b app e heq
    · cases h

/-- Errors escaping the service orchestrator are never transfer errors:
a per-version upload failure cannot surface as the task's error. -/
theorem backupServiceInfo_error_not_upload (w : World) (b : BackupAPPNew) :
    ∀ (apps : List RegionServiceSnapshot) (e : GoErr),
      backupServiceInfo w b apps = .error e → e.isUploadErr = false := by
  intro apps
  induction apps with
  | nil => intro e h; cases h
  | cons app rest ih =>
    intro e h
    unfold backupServiceInfo at h
    split at h
    · rename_i e1 heq
      cases h
      exact backupOneService_error_not_upload w b app e heq
    · split at h
      · rename_i e1 heq
        cases h
        exact ih e heq
      · cases h

/-- Fixture: a success slug version. -/
def vSlug : VersionInfo := ⟨"v1", "slug", "/data/slug1.tgz", "success"⟩

/-- Fixture: more success slug versions. -/
def vSlug2 : VersionInfo := ⟨"v2", "slug", "/data/slug2.tgz", "success"⟩

/-- Fixture: another success slug version. -/
def vSlug3 : VersionInfo := ⟨"v3", "slug", "/data/slug3.tgz", "success"⟩

/-- Fixture: a fourth success slug version, beyond the cap. -/
def vSlug4 : VersionInfo := ⟨"v4", "slug", "/data/slug4.tgz", "success"⟩

/-- Fixture: a success image version. -/
def vImg : VersionInfo := ⟨"v9", "image", "reg.example/app:v9", "success"⟩

/-- Fixture: a service with one success slug version and no volumes. -/
def appFix : RegionServiceSnapshot :=
  ⟨"sid1", ⟨"sid1", "tid1", "alias1", "name1"⟩, [], [vSlug]⟩

/-- Fixture: a service with no versions at all. -/
def appVEmpty : RegionServiceSnapshot :=
  ⟨"sid0", ⟨"sid0", "tid0", "alias0", "name0"⟩, [], []⟩

/-- Fixture: a service whose only declared volume has an empty host
path. -/
def appEmptyHostVol : RegionServiceSnapshot :=
  ⟨"sid2", ⟨"sid2", "tid2", "alias2", "name2"⟩, [⟨"vol/a", ""⟩], [vSlug]⟩

/-- Fixture: a plugin build version. -/
def pvFix : TenantPluginBuildVersion := ⟨"pid1", "dv1", "img:tag"⟩

/-- Fixture: a second plugin build version. -/
def pvFix2 : TenantPluginBuildVersion := ⟨"pid2", "dv2", "img2:tag"⟩

/-- Fixture: a local-mode (full-offline) task. -/
def bLocal : BackupAPPNew :=
  ⟨"g1", "full-offline", "ver1", ⟨"", "", "", "", ""⟩,
    ⟨"", "", "", "", false⟩, "/tmp/backup", "dir", 0⟩

/-- Fixture: a remote-mode (full-online) task with sftp and hub
credentials configured. -/
def bRemote : BackupAPPNew :=
  ⟨"g1", "full-online", "ver1", ⟨"ns", "ftp.example", "21", "u", "p"⟩,
    ⟨"hub.example", "hu", "hp", "ns", false⟩, "/tmp/backup", "dir", 0⟩

/-- Fixture world in which every collaborator call succeeds: slug stats
report a regular file, directories are non-empty, artifact files have
size 100, the final zip has size 50 and images pull with reported size
7; the metadata file holds a structured snapshot of `appFix` with no
plugins. -/
def wAll : World where
  readMetadataFile := fun _ => some (.jsonObject ⟨[appFix], []⟩)
  getFileSize := fun p => if p == "/tmp/backup.zip" then 50 else 100
  newSFTPClientOk := true
  pushFileOk := fun _ _ => true
  copyFileOk := fun _ _ => true
  createShareImage := fun _ _ _ _ => some "backupimg"
  imagePull := fun _ => some 7
  imageTagOk := fun _ _ => true
  trustedImagePushOk := fun _ => true
  imagePushOk := fun _ => true
  imageSaveOk := fun _ _ => true
  newRegistryOk := fun _ => true
  manifestOk := fun _ => true
  statSlug := fun _ => .isFile
  dirIsEmpty := fun _ => false
  zipOk := fun _ _ => true
  envLocalDataPath := ""
  envShareDataPath := ""
  getAppBackupOk := true
  updateModelOk := true

/-- Fixture world whose metadata file holds a legacy flat-list blob. -/
def wLegacy : World :=
  { wAll with readMetadataFile := fun _ => some (.jsonArray [appFix]) }

/-- Fixture world in which slug artifacts are absent (stat reports
not-exist). -/
def wLost : World := { wAll with statSlug := fun _ => .notExist }

/-- Fixture world in which the slug stat fails with an error other than
not-exist. -/
def wStatErr : World := { wAll with statSlug := fun _ => .statFailed }

/-- Fixture world in which local slug copies fail. -/
def wCopyFail : World := { wAll with copyFileOk := fun _ _ => false }

/-- Fixture world in which image pulls fail and the metadata holds one
service and one plugin build version. -/
def wPullFail : World :=
  { wAll with
    readMetadataFile := fun _ => some (.jsonObject ⟨[appFix], [pvFix]⟩)
    imagePull := fun _ => none }

/-- Fixture world in which image export to the local directory fails. -/
def wSaveFail : World := { wAll with imageSaveOk := fun _ _ => false }

/-- Claim C1: the classifier is supposed to return NEW when the
structured decode succeeds, OLD when only the legacy decode succeeds,
and an error when neither decodes.  The code evaluated at a blob that
fails the structured decode and succeeds the legacy decode returns the
empty string with a nil error instead of OldMetadata, and at a blob
that decodes as neither it returns OldMetadata with a nil error instead
of an error; `Run` therefore routes legacy blobs to the structured
branch, where unmarshalling fails and the task errors out. -/
theorem claim_C1_code_eval :
    judgeMetadataVersion (MetadataBlob.jsonArray []) = ("", none) ∧
    unmarshalAppSnapshot (MetadataBlob.jsonArray []) = none ∧
    unmarshalSvcSnapshot (MetadataBlob.jsonArray []) = some [] ∧
    ("" : String) ≠ OldMetadata ∧
    judgeMetadataVersion MetadataBlob.invalid = (OldMetadata, none) ∧
    run wLegacy bLocal = .error .unmarshalError :=
  ⟨rfl, rfl, rfl, by decide, rfl, rfl⟩

/-- Claim C2: the claim says a service declaring no explicit volumes
gets its whole shared data directory archived as one all-data bundle.
The code evaluated at a no-volume service with a non-empty shared
directory produces no bundle at all: the all-data bundle is guarded by
`len(app.ServiceVolume) > 0`.  The claim's second half holds: a
declared volume with an empty host path yields no per-volume bundle
(only the all-data bundle its presence triggers). -/
theorem claim_C2_code_eval :
    backupServiceVolumes wAll bLocal appFix = .ok [] ∧
    appFix.serviceVolume = [] ∧
    wAll.dirIsEmpty (serviceVolumeDataDir wAll appFix) = false ∧
    backupServiceVolumes wAll bLocal appEmptyHostVol = .ok [allDataDstDir bLocal] ∧
    backupVolumesLoop wAll bLocal appEmptyHostVol appEmptyHostVol.serviceVolume = .ok [] :=
  ⟨rfl, rfl, rfl, rfl, rfl⟩

/-- Claim C3: the claim says the normalization strips exactly one
trailing separator.  The code evaluated at a source directory ending in
a separator strips two characters (the separator and the last character
of the directory name); a directory without a trailing separator is
left unchanged. -/
theorem claim_C3_code_eval :
    normalizeSourceDir "/tmp/backup/" = "/tmp/backu" ∧
    "/tmp/backu" ≠ "/tmp/backup" ∧
    normalizeSourceDir "/tmp/backup" = "/tmp/backup" :=
  ⟨rfl, by decide, rfl⟩

/-- Claim C6: when the per-version loop of a service counts zero
successful transfers, the orchestrator returns an error whose message
names that service, and the result does not depend on the services
after it — none of them is processed. -/
theorem claim_C6 (w : World) (b : BackupAPPNew) (app : RegionServiceSnapshot)
    (rest : List RegionServiceSnapshot)
    (h : (backupVersionsLoop w b app app.versions 0 0 []).cnt = 0) :
    backupServiceInfo w b (app :: rest) =
      .error (.backupBuildVersionFailure app.service.serviceAlias) ∧
    ∃ p q, (GoErr.backupBuildVersionFailure app.service.serviceAlias).message =
      p ++ app.service.serviceAlias ++ q := by
  constructor
  · have hone : backupOneService w b app =
        .error (.backupBuildVersionFailure app.service.serviceAlias) := by
      unfold backupOneService
      rw [if_pos (by simp [h])]
    simp [backupServiceInfo, hone]
  · exact ⟨"Application(", ") Backup build version failure", rfl⟩

/-- Claim C6 witness: a service with no versions counts zero transfers;
the orchestrator run on it followed by another service aborts with the
error naming it. -/
theorem claim_C6_witness :
    (backupVersionsLoop wAll bLocal appVEmpty appVEmpty.versions 0 0 []).cnt = 0 ∧
    backupServiceInfo wAll bLocal [appVEmpty, appFix] =
      .error (.backupBuildVersionFailure "alias0") ∧
    ∃ p q, (GoErr.backupBuildVersionFailure "alias0").message =
      p ++ "alias0" ++ q :=
  ⟨rfl, (claim_C6 wAll bLocal appVEmpty [appFix] rfl).1,
    (claim_C6 wAll bLocal appVEmpty [appFix] rfl).2⟩

/-- Claim C7: a slug or image version with status success whose
existence check reports false is marked lost and skipped: the loop
continues with the counter, size and log unchanged. -/
theorem claim_C7 (w : World) (b : BackupAPPNew) (app : RegionServiceSnapshot)
    (v : VersionInfo) (rest : List VersionInfo) (cnt : Nat) (size : Int)
    (log : List LogEntry) (hcnt : cnt < maxBackupVersionSize)
    (hkind : v.deliveredType = "slug" ∨ v.deliveredType = "image")
    (hstatus : v.finalStatus = "success")
    (hmiss : (checkVersionExist w v).1 = false) :
    backupVersionsLoop w b app (v :: rest) cnt size log =
      ⟨{ v with finalStatus := "lost" } ::
          (backupVersionsLoop w b app rest cnt size log).versions,
        (backupVersionsLoop w b app rest cnt size log).cnt,
        (backupVersionsLoop w b app rest cnt size log).size,
        (backupVersionsLoop w b app rest cnt size log).log⟩ :=
  backupVersionsLoop_lost_step w b app v rest cnt size log hcnt hkind hstatus hmiss

/-- Claim C7 witness: in a world where the slug file does not exist the
success version is marked lost, not counted, and the loop ends. -/
theorem claim_C7_witness :
    (0 : Nat) < maxBackupVersionSize ∧
    (checkVersionExist wLost vSlug).1 = false ∧
    backupVersionsLoop wLost bLocal appFix [vSlug] 0 0 [] =
      ⟨[{ vSlug with finalStatus := "lost" }], 0, 0, []⟩ :=
  ⟨by decide, rfl,
    claim_C7 wLost bLocal appFix vSlug [] 0 0 [] (by decide) (Or.inl rfl) rfl rfl⟩

/-- Claim C10: every error path of the existence check reports false
(so the error is discarded by the `ok, _ :=` pattern), and a success
version whose check errored is treated exactly like an absent artifact:
marked lost, skipped, with the check's error never escaping the loop. -/
theorem claim_C10 (w : World) (b : BackupAPPNew) (app : RegionServiceSnapshot) :
    (∀ v : VersionInfo, (checkVersionExist w v).2.isSome = true →
      (checkVersionExist w v).1 = false) ∧
    (∀ (v : VersionInfo) (rest : List VersionInfo) (cnt : Nat) (size : Int)
        (log : List LogEntry),
      cnt < maxBackupVersionSize →
      (v.deliveredType = "slug" ∨ v.deliveredType = "image") →
      v.finalStatus = "success" →
      (checkVersionExist w v).2.isSome = true →
      backupVersionsLoop w b app (v :: rest) cnt size log =
        ⟨{ v with finalStatus := "lost" } ::
            (backupVersionsLoop w b app rest cnt size log).versions,
          (backupVersionsLoop w b app rest cnt size log).cnt,
          (backupVersionsLoop w b app rest cnt size log).size,
          (backupVersionsLoop w b app rest cnt size log).log⟩) := by
  constructor
  · exact fun v h => checkVersionExist_err_false w v h
  · intro v rest cnt size log hcnt hkind hstatus herr
    exact backupVersionsLoop_lost_step w b app v rest cnt size log hcnt hkind hstatus
      (checkVersionExist_err_false w v herr)

/-- Claim C10 witness: a stat failure other than not-exist yields an
error from the check, which is discarded; the version is marked lost
and the loop continues. -/
theorem claim_C10_witness :
    (checkVersionExist wStatErr vSlug).2.isSome = true ∧
    (checkVersionExist wStatErr vSlug).1 = false ∧
    backupVersionsLoop wStatErr bLocal appFix [vSlug] 0 0 [] =
      ⟨[{ vSlug with finalStatus := "lost" }], 0, 0, []⟩ :=
  ⟨rfl, (claim_C10 wStatErr bLocal appFix).1 vSlug rfl,
    (claim_C10 wStatErr bLocal appFix).2 vSlug [] 0 0 [] (by decide) (Or.inl rfl)
      rfl rfl⟩

/-- Claim C9: a failing plugin image pull or export aborts the plugin
backup immediately with that error, for every tail of later plugin
records (none of which is processed); such an error from the plugin
phase is the result of the whole run. -/
theorem claim_C9 (w : World) (b : BackupAPPNew) :
    (∀ (pv : TenantPluginBuildVersion) (tail : List TenantPluginBuildVersion),
      w.imagePull pv.buildLocalImage = none →
      backupPluginInfo w b (pv :: tail) =
        .error (.pluginPullError pv.buildLocalImage)) ∧
    (∀ (pv : TenantPluginBuildVersion) (tail : List TenantPluginBuildVersion)
        (sz : Int),
      w.imagePull pv.buildLocalImage = some sz →
      w.imageSaveOk pv.buildLocalImage (pluginDstDir b pv) = false →
      backupPluginInfo w b (pv :: tail) =
        .error (.pluginSaveError pv.buildLocalImage)) ∧
    (∀ (snap : AppSnapshot) (e : GoErr) (apps : List RegionServiceSnapshot)
        (d : Int) (lg : List LogEntry),
      w.readMetadataFile (b.sourceDir ++ "/region_apps_metadata.json") =
        some (.jsonObject snap) →
      backupServiceInfo w b snap.services = .ok (apps, d, lg) →
      backupPluginInfo w b snap.pluginBuildVersions = .error e →
      run w b = .error e) := by
  refine ⟨?_, ?_, ?_⟩
  · intro pv tail hpull
    unfold backupPluginInfo
    rw [hpull]
  · intro pv tail sz hpull hsave
    unfold backupPluginInfo
    rw [hpull]
    simp [hsave]
  · intro snap e apps d lg hread hsvc hplug
    unfold run
    rw [hread]
    simp [judgeMetadataVersion, unmarshalAppSnapshot, unmarshalSvcSnapshot,
      hsvc, hplug, show (NewMetadata == OldMetadata) = false from rfl]

/-- Claim C9 witness: with the pull failing, the plugin backup over two
records aborts at the first with the pull error, and a run whose
snapshot holds that plugin record fails with the same error; with only
the export failing, the save error aborts. -/
theorem claim_C9_witness :
    wPullFail.imagePull pvFix.buildLocalImage = none ∧
    backupPluginInfo wPullFail bLocal [pvFix, pvFix2] =
      .error (.pluginPullError "img:tag") ∧
    backupPluginInfo wSaveFail bLocal [pvFix] =
      .error (.pluginSaveError "img:tag") ∧
    run wPullFail bLocal = .error (.pluginPullError "img:tag") := by
  refine ⟨rfl, (claim_C9 wPullFail bLocal).1 pvFix [pvFix2] rfl, ?_, ?_⟩
  · exact (claim_C9 wSaveFail bLocal).2.1 pvFix [] 7 rfl rfl
  · exact (claim_C9 wPullFail bLocal).2.2 ⟨[appFix], [pvFix]⟩
      (.pluginPullError "img:tag") [appFix] 0 [] rfl rfl rfl

/-- Claim C8: a per-version transfer failure is soft: the version
record and the counter are unchanged, one error log entry is appended,
the loop continues on the remaining versions, and no transfer error can
ever surface as the orchestrator's returned error. -/
theorem claim_C8 (w : World) (b : BackupAPPNew) (app : RegionServiceSnapshot) :
    (∀ (v : VersionInfo) (rest : List VersionInfo) (cnt : Nat) (size : Int)
        (log : List LogEntry) (e : GoErr),
      cnt < maxBackupVersionSize →
      v.deliveredType = "slug" → v.finalStatus = "success" →
      (checkVersionExist w v).1 = true →
      uploadSlug w b app v = .error e →
      backupVersionsLoop w b app (v :: rest) cnt size log =
        ⟨v :: (backupVersionsLoop w b app rest cnt size
            (log ++ [.uploadSlugError app.service.serviceName v.buildVersion])).versions,
          (backupVersionsLoop w b app rest cnt size
            (log ++ [.uploadSlugError app.service.serviceName v.buildVersion])).cnt,
          (backupVersionsLoop w b app rest cnt size
            (log ++ [.uploadSlugError app.service.serviceName v.buildVersion])).size,
          (backupVersionsLoop w b app rest cnt size
            (log ++ [.uploadSlugError app.service.serviceName v.buildVersion])).log⟩) ∧
    (∀ (v : VersionInfo) (rest : List VersionInfo) (cnt : Nat) (size : Int)
        (log : List LogEntry) (e : GoErr),
      cnt < maxBackupVersionSize →
      v.deliveredType = "image" → v.finalStatus = "success" →
      (checkVersionExist w v).1 = true →
      uploadImage w b app v = .error e →
      backupVersionsLoop w b app (v :: rest) cnt size log =
        ⟨v :: (backupVersionsLoop w b app rest cnt size
            (log ++ [.uploadImageError app.service.serviceName v.buildVersion])).versions,
          (backupVersionsLoop w b app rest cnt size
            (log ++ [.uploadImageError app.service.serviceName v.buildVersion])).cnt,
          (backupVersionsLoop w b app rest cnt size
            (log ++ [.uploadImageError app.service.serviceName v.buildVersion])).size,
          (backupVersionsLoop w b app rest cnt size
            (log ++ [.uploadImageError app.service.serviceName v.buildVersion])).log⟩) ∧
    (∀ (apps : List RegionServiceSnapshot) (e : GoErr),
      backupServiceInfo w b apps = .error e → e.isUploadErr = false) := by
  refine ⟨?_, ?_, ?_⟩
  · intro v rest cnt size log e hcnt hk hs he herr
    exact backupVersionsLoop_slug_err_step w b app v rest cnt size log e hcnt hk hs he herr
  · intro v rest cnt size log e hcnt hk hs he herr
    exact backupVersionsLoop_image_err_step w b app v rest cnt size log e hcnt hk hs he herr
  · exact backupServiceInfo_error_not_upload w b

/-- Claim C8 witness: a failing local slug copy leaves the version
unchanged and uncounted, appends one log entry, and the whole-service
result is the zero-success hard failure, which is not a transfer
error. -/
theorem claim_C8_witness :
    uploadSlug wCopyFail bLocal appFix vSlug =
      .error (.copyFileError "/data/slug1.tgz" "/tmp/backup/app_sid1/slug_v1.tgz") ∧
    backupVersionsLoop wCopyFail bLocal appFix [vSlug] 0 0 [] =
      ⟨[vSlug], 0, 0, [.uploadSlugError "name1" "v1"]⟩ ∧
    backupVersionsLoop wSaveFail bLocal appFix [vImg] 0 0 [] =
      ⟨[vImg], 0, 0, [.uploadImageError "name1" "v9"]⟩ ∧
    backupServiceInfo wCopyFail bLocal [appFix] =
      .error (.backupBuildVersionFailure "alias1") ∧
    (GoErr.backupBuildVersionFailure "alias1").isUploadErr = false := by
  refine ⟨rfl, ?_, ?_, rfl, ?_⟩
  · exact (claim_C8 wCopyFail bLocal appFix).1 vSlug [] 0 0 [] _ (by decide)
      rfl rfl rfl rfl
  · exact (claim_C8 wSaveFail bLocal appFix).2.1 vImg [] 0 0 [] _ (by decide)
      rfl rfl rfl rfl
  · exact (claim_C8 wCopyFail bLocal appFix).2.2 [appFix] _ rfl

/-- Claim C5: for a service whose first cap-many versions are all
successfully transferable, the loop transfers exactly the cap, emits
every version record unchanged, logs nothing, and never touches the
versions after the cap — the result holds for every suffix whatever its
content. -/
theorem claim_C5 (w : World) (b : BackupAPPNew) (app : RegionServiceSnapshot)
    (pre suffix : List VersionInfo)
    (hgood : ∀ v ∈ pre, goodVersion w b app v = true)
    (hlen : pre.length = maxBackupVersionSize) :
    backupVersionsLoop w b app (pre ++ suffix) 0 0 [] =
      ⟨pre ++ suffix, maxBackupVersionSize,
        (pre.map (transferDelta w b app)).sum, []⟩ := by
  have h1 := backupVersionsLoop_good_prefix w b app pre suffix 0 0 [] hgood (by omega)
  rw [h1, backupVersionsLoop_break w b app suffix (0 + pre.length)
    (0 + (pre.map (transferDelta w b app)).sum) [] (by omega)]
  simp [hlen]

/-- Claim C5 witness: four successful slug versions with cap 3 —
exactly three are counted, the fourth is left untouched, no log entry
is produced. -/
theorem claim_C5_witness :
    (∀ v ∈ [vSlug, vSlug2, vSlug3], goodVersion wAll bLocal appFix v = true) ∧
    backupVersionsLoop wAll bLocal appFix ([vSlug, vSlug2, vSlug3] ++ [vSlug4]) 0 0 [] =
      ⟨[vSlug, vSlug2, vSlug3, vSlug4], maxBackupVersionSize, 0, []⟩ := by
  constructor
  · decide
  · exact (claim_C5 wAll bLocal appFix [vSlug, vSlug2, vSlug3] [vSlug4]
      (by decide) rfl).trans (by decide)

/-- Modelled from the claim's words for C4 (spec P6): the reported size
of an individually transferred artifact — the delivered file's size for
slug kind, the pulled image's reported size for image kind. -/
def reportedArtifactSize (w : World) (v : VersionInfo) : Int :=
  if v.deliveredType == "slug" then w.getFileSize v.deliveredPath
  else (w.imagePull v.deliveredPath).getD 0

/-- Claim C4 counterexample: a successful local-mode run that transfers
exactly one slug artifact of reported size 100 and produces a final zip
of size 50 ends with BackupSize 50, not 150 — the local transfer
contributed nothing, contradicting the claim's "in both local and
remote destination modes". -/
theorem claim_C4_counterexample :
    run wAll bLocal = .ok ⟨50, "/tmp/backup.zip", "dir"⟩ ∧
    (backupVersionsLoop wAll bLocal appFix appFix.versions 0 0 []).cnt = 1 ∧
    reportedArtifactSize wAll vSlug + wAll.getFileSize "/tmp/backup.zip" = 150 ∧
    (50 : Int) ≠ 150 :=
  ⟨rfl, rfl, rfl, by decide⟩

/-- Claim C4 as amended: the final BackupSize is the initial size plus
the per-version transfer deltas plus the final zip's size, each counted
version contributing exactly once (only the first cap-many versions):
in local destination mode every delta is zero (the loop never changes
the accumulator), while in remote mode a successful slug upload
contributes the slug file's reported size and a successful image upload
the pulled image's reported size; on the structured path a successful
run ends with exactly initial size + service delta + zip size, in the
local ending (zip kept, source type unchanged) and in the remote ending
(zip pushed over sftp, no further size added, source repointed at the
remote object with type sftp) alike. -/
theorem claim_C4 (w : World) (b : BackupAPPNew) (app : RegionServiceSnapshot) :
    ((b.mode == "full-online" && b.slugInfo.ftpHost != "" &&
        b.slugInfo.ftpPort != "") = false →
      (b.mode == "full-online" && b.imageInfo.hubURL != "") = false →
      ∀ (vs : List VersionInfo) (cnt : Nat) (size : Int) (log : List LogEntry),
        (backupVersionsLoop w b app vs cnt size log).size = size) ∧
    (∀ (vs : List VersionInfo) (size : Int),
      (∀ v ∈ vs, goodVersion w b app v = true) →
      (backupVersionsLoop w b app vs 0 size []).size =
        size + ((vs.take maxBackupVersionSize).map (transferDelta w b app)).sum) ∧
    (∀ (v : VersionInfo) (d : Int),
      (b.mode == "full-online" && b.slugInfo.ftpHost != "" &&
        b.slugInfo.ftpPort != "") = true →
      uploadSlug w b app v = .ok d → d = w.getFileSize v.deliveredPath) ∧
    (∀ (v : VersionInfo) (d : Int),
      (b.mode == "full-online" && b.imageInfo.hubURL != "") = true →
      uploadImage w b app v = .ok d → d = (w.imagePull v.deliveredPath).getD 0) ∧
    (∀ (snap : AppSnapshot) (apps : List RegionServiceSnapshot) (d : Int)
        (lg : List LogEntry) (tars : List String),
      w.readMetadataFile (b.sourceDir ++ "/region_apps_metadata.json") =
        some (.jsonObject snap) →
      backupServiceInfo w b snap.services = .ok (apps, d, lg) →
      backupPluginInfo w b snap.pluginBuildVersions = .ok tars →
      w.zipOk (normalizeSourceDir b.sourceDir)
        (normalizeSourceDir b.sourceDir ++ ".zip") = true →
      (b.mode == "full-online" && b.slugInfo.ftpHost != "" &&
        b.slugInfo.ftpPort != "") = false →
      w.getAppBackupOk = true → w.updateModelOk = true →
      run w b = .ok ⟨b.backupSize + d +
          w.getFileSize (normalizeSourceDir b.sourceDir ++ ".zip"),
        normalizeSourceDir b.sourceDir ++ ".zip", b.sourceType⟩) ∧
    (∀ (snap : AppSnapshot) (apps : List RegionServiceSnapshot) (d : Int)
        (lg : List LogEntry) (tars : List String),
      w.readMetadataFile (b.sourceDir ++ "/region_apps_metadata.json") =
        some (.jsonObject snap) →
      backupServiceInfo w b snap.services = .ok (apps, d, lg) →
      backupPluginInfo w b snap.pluginBuildVersions = .ok tars →
      w.zipOk (normalizeSourceDir b.sourceDir)
        (normalizeSourceDir b.sourceDir ++ ".zip") = true →
      (b.mode == "full-online" && b.slugInfo.ftpHost != "" &&
        b.slugInfo.ftpPort != "") = true →
      w.newSFTPClientOk = true →
      w.pushFileOk (normalizeSourceDir b.sourceDir ++ ".zip")
        (b.slugInfo.nameSpace ++ "/backup/" ++ b.groupID ++ "_" ++ b.version ++
          "/metadata_data.zip") = true →
      w.getAppBackupOk = true → w.updateModelOk = true →
      run w b = .ok ⟨b.backupSize + d +
          w.getFileSize (normalizeSourceDir b.sourceDir ++ ".zip"),
        b.slugInfo.nameSpace ++ "/backup/" ++ b.groupID ++ "_" ++ b.version ++
          "/metadata_data.zip", "sftp"⟩) := by
  refine ⟨?_, ?_, ?_, ?_, ?_, ?_⟩
  · intro h1 h2 vs cnt size log
    exact backupVersionsLoop_local_size w b app h1 h2 vs cnt size log
  · intro vs size hgood
    by_cases hle : vs.length ≤ maxBackupVersionSize
    · have h1 := backupVersionsLoop_good_prefix w b app vs [] 0 size [] hgood (by omega)
      rw [List.append_nil] at h1
      rw [h1, List.take_of_length_le hle]
      rfl
    · push_neg at hle
      have hsplit := List.take_append_drop maxBackupVersionSize vs
      have hgood' : ∀ v ∈ vs.take maxBackupVersionSize, goodVersion w b app v = true :=
        fun v hv => hgood v (List.take_subset _ _ hv)
      have hlen : (vs.take maxBackupVersionSize).length = maxBackupVersionSize := by
        rw [List.length_take]; omega
      have h1 := backupVersionsLoop_good_prefix w b app (vs.take maxBackupVersionSize)
        (vs.drop maxBackupVersionSize) 0 size [] hgood' (by omega)
      conv_lhs => rw [← hsplit]
      rw [h1, backupVersionsLoop_break w b app (vs.drop maxBackupVersionSize)
        (0 + (vs.take maxBackupVersionSize).length)
        (size + ((vs.take maxBackupVersionSize).map (transferDelta w b app)).sum)
        [] (by omega)]
  · intro v d hmode h
    rw [uploadSlug_ok_size w b app v d h, if_pos hmode]
  · intro v d hmode h
    rw [uploadImage_ok_size w b app v d h, if_pos hmode]
  · intro snap apps d lg tars hread hsvc hplug hzip hmode hdb1 hdb2
    have hfin : runFinalize w b d = .ok ⟨b.backupSize + d +
        w.getFileSize (normalizeSourceDir b.sourceDir ++ ".zip"),
        normalizeSourceDir b.sourceDir ++ ".zip", b.sourceType⟩ := by
      simp [runFinalize, updateBackupStatu, hzip, hmode, hdb1, hdb2]
    unfold run
    rw [hread]
    simp [judgeMetadataVersion, unmarshalAppSnapshot, unmarshalSvcSnapshot,
      hsvc, hplug, hfin, show (NewMetadata == OldMetadata) = false from rfl]
  · intro snap apps d lg tars hread hsvc hplug hzip hmode hsftp hpush hdb1 hdb2
    have hfin : runFinalize w b d = .ok ⟨b.backupSize + d +
        w.getFileSize (normalizeSourceDir b.sourceDir ++ ".zip"),
        b.slugInfo.nameSpace ++ "/backup/" ++ b.groupID ++ "_" ++ b.version ++
          "/metadata_data.zip", "sftp"⟩ := by
      simp [runFinalize, updateBackupStatu, hzip, hmode, hsftp, hpush, hdb1, hdb2]
    unfold run
    rw [hread]
    simp [judgeMetadataVersion, unmarshalAppSnapshot, unmarshalSvcSnapshot,
      hsvc, hplug, hfin, show (NewMetadata == OldMetadata) = false from rfl]

/-- Claim C4 witness: each part of the amended accounting instantiated
at concrete inputs — local loops never change the accumulator, the
good-versions sum, the remote slug and image reported sizes, a concrete
successful local-ending run at initial + delta + zip size, and a
concrete successful remote-ending run at the same identity with the
100-byte slug delta counted once and the zip pushed over sftp. -/
theorem claim_C4_witness :
    (backupVersionsLoop wAll bLocal appFix [vSlug] 0 5 []).size = 5 ∧
    (backupVersionsLoop wAll bLocal appFix [vSlug] 0 0 []).size =
      0 + (([vSlug].take maxBackupVersionSize).map
        (transferDelta wAll bLocal appFix)).sum ∧
    uploadSlug wAll bRemote appFix vSlug = .ok 100 ∧
    (100 : Int) = wAll.getFileSize vSlug.deliveredPath ∧
    uploadImage wAll bRemote appFix vImg = .ok 7 ∧
    (7 : Int) = (wAll.imagePull vImg.deliveredPath).getD 0 ∧
    run wAll bLocal = .ok ⟨50, "/tmp/backup.zip", "dir"⟩ ∧
    backupServiceInfo wAll bRemote [appFix] = .ok ([appFix], 100, []) ∧
    run wAll bRemote =
      .ok ⟨150, "ns/backup/g1_ver1/metadata_data.zip", "sftp"⟩ := by
  refine ⟨?_, ?_, rfl, ?_, rfl, ?_, ?_, rfl, ?_⟩
  · exact (claim_C4 wAll bLocal appFix).1 rfl rfl [vSlug] 0 5 []
  · exact (claim_C4 wAll bLocal appFix).2.1 [vSlug] 0 (by decide)
  · exact (claim_C4 wAll bRemote appFix).2.2.1 vSlug 100 rfl rfl
  · exact (claim_C4 wAll bRemote appFix).2.2.2.1 vImg 7 rfl rfl
  · exact (claim_C4 wAll bLocal appFix).2.2.2.2.1 ⟨[appFix], []⟩ [appFix] 0 [] []
      rfl rfl rfl rfl rfl rfl rfl
  · exact (claim_C4 wAll bRemote appFix).2.2.2.2.2 ⟨[appFix], []⟩ [appFix] 100 [] []
      rfl rfl rfl rfl rfl rfl rfl rfl rfl

end RainbondBackup
